import Mathlib

/-!
# Verification of `bigquery_manager.manager.BigQueryManager`

A shallow embedding of the query manager: the SQL string builders
(`__generate_invoke_sql`, `__generate_select_sql`), parameter conversion
(`__convert_params`), job-configuration merging (`query` / `__set_job_config`),
the result helper (`get_one_result`), row insertion (`insert`) and the
convenience composition (`get_last_id`).  The wrapped BigQuery client is
abstract: a query-executing client is a function from SQL text and optional
job configuration to a list of rows, and the insert path is parameterised by
the client's `get_table` and `insert_rows` entry points.
-/

namespace BQM

/-- A Python scalar value as it occurs in parameter descriptors and result rows. -/
inductive Value where
  | vStr (s : String)
  | vInt (n : Int)
  | vNull
deriving DecidableEq, Repr

/-- Python truthiness of a scalar value (`None`, `0` and `""` are falsy). -/
def Value.truthy : Value → Bool
  | .vStr s => !s.isEmpty
  | .vInt n => decide (n ≠ 0)
  | .vNull => false

/-- A parameter descriptor dict `{"name": ..., "type": ..., "value": ...}`;
`dict.get` yields `none` for a missing key. -/
structure ParamDesc where
  name : Option String
  type : Option String
  value : Option Value
deriving DecidableEq, Repr

/-- The `params` / `filters` argument of the Python methods: `None` (the
default), a list of descriptors, or a truthy-capable non-list iterable of
descriptors (e.g. a tuple) — `isinstance(filters, list)` distinguishes the
last two. -/
inductive PyParams where
  | pyNone
  | pyList (ps : List ParamDesc)
  | pyTuple (ps : List ParamDesc)
deriving DecidableEq, Repr

/-- Python truthiness of the argument: `None` is falsy, a sequence is truthy
iff non-empty. -/
def PyParams.truthy : PyParams → Bool
  | .pyNone => false
  | .pyList ps => !ps.isEmpty
  | .pyTuple ps => !ps.isEmpty

/-- Iterating the argument (only meaningful for sequences; `None` gives `[]`). -/
def PyParams.toList : PyParams → List ParamDesc
  | .pyNone => []
  | .pyList ps => ps
  | .pyTuple ps => ps

/-- Python `params or []`. -/
def PyParams.orEmpty (p : PyParams) : List ParamDesc :=
  if p.truthy then p.toList else []

/-- Python `sep.join(parts)`. -/
def pyJoin (sep : String) : List String → String
  | [] => ""
  | [x] => x
  | x :: y :: xs => x ++ sep ++ pyJoin sep (y :: xs)

/-- Python f-string rendering of an optional string (`None` prints as `"None"`). -/
def pyStr : Option String → String
  | some s => s
  | none => "None"

/-- `__generate_invoke_sql`: `CALL \`{sp}\`({placeholders});` with one `?` per
element of `params or []`, joined by `", "`. -/
def generate_invoke_sql (sp : String) (params : PyParams) : String :=
  "CALL `" ++ sp ++ "`(" ++ pyJoin ", " (params.orEmpty.map (fun _ => "?")) ++ ");"

/-- One `WHERE` term: `f"{col.get('name')} = @{col.get('name')}"`. -/
def filterTerm (col : ParamDesc) : String :=
  pyStr col.name ++ " = @" ++ pyStr col.name

/-- `__generate_select_sql`: `SELECT {select} FROM \`{table}\``, plus a `WHERE`
clause when `isinstance(filters, list) and filters` holds, terminated by `;`. -/
def generate_select_sql (table select : String) (filters : PyParams) : String :=
  let sql := "SELECT " ++ select ++ " FROM `" ++ table ++ "`"
  match filters with
  | .pyList fs =>
      if fs.isEmpty then sql ++ ";"
      else sql ++ " WHERE " ++ pyJoin " AND " (fs.map filterTerm) ++ ";"
  | _ => sql ++ ";"

/-- `google.cloud.bigquery.ScalarQueryParameter(name, type_, value)`. -/
structure ScalarQueryParameter where
  name : Option String
  type : Option String
  value : Option Value
deriving DecidableEq, Repr

/-- `__convert_params`: the list of scalar parameters if `params` is truthy,
else `None`. -/
def convert_params (params : PyParams) : Option (List ScalarQueryParameter) :=
  if params.truthy then
    some (params.toList.map (fun p => ⟨p.name, p.type, p.value⟩))
  else none

/-- A value stored in the `**job_configs` keyword mapping: either an opaque
option value (e.g. a write disposition string) or a bound parameter list. -/
inductive JobVal where
  | jstr (s : String)
  | jparams (ps : Option (List ScalarQueryParameter))
deriving DecidableEq, Repr

/-- The `**job_configs` keyword mapping, in insertion order. -/
abbrev Kwargs := List (String × JobVal)

/-- Python dict assignment `m[k] = v`: replace in place if present, else append. -/
def setKey : Kwargs → String → JobVal → Kwargs
  | [], k, v => [(k, v)]
  | (k0, v0) :: rest, k, v =>
      if k0 = k then (k, v) :: rest else (k0, v0) :: setKey rest k v

/-- Python dict lookup `m.get(k)`. -/
def lookupKey : Kwargs → String → Option JobVal
  | [], _ => none
  | (k0, v0) :: rest, k => if k0 = k then some v0 else lookupKey rest k

/-- `__set_job_config`: `QueryJobConfig(**job_configs) if job_configs else None`;
the configuration object is modelled by the mapping it is built from. -/
def set_job_config (jc : Kwargs) : Option Kwargs :=
  if jc.isEmpty then none else some jc

/-- The options mapping after `query`'s mutation: `query_parameters` is
assigned iff `params` is truthy. -/
def merged_job_configs (params : PyParams) (jc : Kwargs) : Kwargs :=
  if params.truthy then setKey jc "query_parameters" (.jparams (convert_params params))
  else jc

/-- The single call `query` makes on the wrapped client:
`client.query(query=sql, job_config=...)`. -/
structure QueryCall where
  query : String
  job_config : Option Kwargs
deriving DecidableEq, Repr

/-- `BigQueryManager.query`, observed as the one delegated client call. -/
def query_call (sql : String) (params : PyParams) (jc : Kwargs) : QueryCall :=
  ⟨sql, set_job_config (merged_job_configs params jc)⟩

/-- `BigQueryManager.invoke`, observed as the delegated client call. -/
def invoke_call (sp : String) (params : PyParams) (jc : Kwargs) : QueryCall :=
  query_call (generate_invoke_sql sp params) params jc

/-- `BigQueryManager.select`, observed as the delegated client call: the SQL is
built from `filters` and `filters` is reused as the parameter list. -/
def select_call (table select : String) (filters : PyParams) (jc : Kwargs) : QueryCall :=
  query_call (generate_select_sql table select filters) filters jc

/-- A result row (a Python tuple of column values). -/
abbrev PyRow := List Value

/-- `get_one_result`: `row = next(iter(query_res), None); row[0] if row else None`.
Both a missing first row and a falsy (empty) first row give `None`. -/
def get_one_result : List PyRow → Option Value
  | [] => none
  | [] :: _ => none
  | (v :: _) :: _ => some v

/-- `query` run against an executing client (a function from the delegated
call's SQL and configuration to the resulting rows). -/
def query_exec (clientQuery : String → Option Kwargs → List PyRow)
    (sql : String) (params : PyParams) (jc : Kwargs) : List PyRow :=
  let c := query_call sql params jc
  clientQuery c.query c.job_config

/-- `select` run against an executing client. -/
def select_exec (clientQuery : String → Option Kwargs → List PyRow)
    (table select : String) (filters : PyParams) (jc : Kwargs) : List PyRow :=
  query_exec clientQuery (generate_select_sql table select filters) filters jc

/-- Python `x or 0` for an optional scalar result. -/
def pyOrZero : Option Value → Value
  | none => .vInt 0
  | some v => if v.truthy then v else .vInt 0

/-- `get_last_id`: `select(destination_table, "MAX(Id)")` then
`get_one_result(...) or 0`. -/
def get_last_id (clientQuery : String → Option Kwargs → List PyRow)
    (destination_table : String) : Value :=
  let last_id := select_exec clientQuery destination_table "MAX(Id)" .pyNone []
  pyOrZero (get_one_result last_id)

/-- A row of data to insert: a field-name / value mapping. -/
abbrev RowMap := List (String × Value)

/-- An observable operation performed on the wrapped client by `insert`. -/
inductive ClientOp where
  | opGetTable (t : String)
  | opInsertRows (handle : Nat) (data : List RowMap)
deriving DecidableEq, Repr

/-- The outcome of `insert`: normal return, or `raise RuntimeError(res)`
carrying the client's error sequence. -/
inductive InsertOutcome where
  | ok
  | runtimeError (errors : List Value)
deriving DecidableEq, Repr

/-- `BigQueryManager.insert`, parameterised by the client's `get_table` (table
handles are abstract) and `insert_rows` entry points; returns the outcome and
the trace of client operations. -/
def insert (get_table : String → Nat)
    (insert_rows : Nat → List RowMap → Option (List String) → Kwargs → List Value)
    (destination_table : String) (data : List RowMap)
    (selected_fields : Option (List String)) (kwargs : Kwargs) :
    InsertOutcome × List ClientOp :=
  if data.isEmpty then (.ok, [])
  else
    let handle := get_table destination_table
    let res := insert_rows handle data selected_fields kwargs
    if res.isEmpty then
      (.ok, [.opGetTable destination_table, .opInsertRows handle data])
    else
      (.runtimeError res, [.opGetTable destination_table, .opInsertRows handle data])

/-- Modelled from the spec: the `WHERE` clause as the spec words it — one
`name = @name` term per filter, joined by `" AND "`, in filter list order. -/
def whereClauseSpec : List ParamDesc → String
  | [] => ""
  | [p] => filterTerm p
  | p :: q :: rest => filterTerm p ++ " AND " ++ whereClauseSpec (q :: rest)

/-- Modelled from the spec: parameter conversion as the spec words it — one
scalar parameter per descriptor from its name/type/value fields, in order. -/
def convertSpec : List ParamDesc → List ScalarQueryParameter
  | [] => []
  | p :: rest => ⟨p.name, p.type, p.value⟩ :: convertSpec rest

/-! ## Helper lemmas -/

theorem pyJoin_map_filterTerm (fs : List ParamDesc) :
    pyJoin " AND " (fs.map filterTerm) = whereClauseSpec fs := by
  match fs with
  | [] => rfl
  | [p] => rfl
  | p :: q :: rest =>
      show filterTerm p ++ " AND " ++ pyJoin " AND " ((q :: rest).map filterTerm) = _
      rw [pyJoin_map_filterTerm (q :: rest)]
      rfl

theorem map_placeholder (ps : List ParamDesc) :
    ps.map (fun _ => ("?" : String)) = List.replicate ps.length "?" := by
  induction ps with
  | nil => rfl
  | cons p rest ih => simp [List.replicate, ih]

theorem orEmpty_pyList (ps : List ParamDesc) : (PyParams.pyList ps).orEmpty = ps := by
  cases ps <;> simp [PyParams.orEmpty, PyParams.truthy, PyParams.toList]

theorem lookupKey_setKey_self (m : Kwargs) (k : String) (v : JobVal) :
    lookupKey (setKey m k v) k = some v := by
  induction m with
  | nil => simp [setKey, lookupKey]
  | cons kv rest ih =>
      obtain ⟨k0, v0⟩ := kv
      by_cases h : k0 = k
      · simp [setKey, h, lookupKey]
      · simp [setKey, h, lookupKey, ih]

theorem lookupKey_setKey_other (m : Kwargs) (k k1 : String) (v : JobVal)
    (hne : k1 ≠ k) : lookupKey (setKey m k v) k1 = lookupKey m k1 := by
  induction m with
  | nil => simp [setKey, lookupKey, Ne.symm hne]
  | cons kv rest ih =>
      obtain ⟨k0, v0⟩ := kv
      by_cases h : k0 = k
      · subst h
        simp [setKey, lookupKey, Ne.symm hne, hne]
      · simp [setKey, h, lookupKey, ih]

theorem setKey_ne_nil (m : Kwargs) (k : String) (v : JobVal) :
    setKey m k v ≠ [] := by
  cases m with
  | nil => simp [setKey]
  | cons kv rest =>
      obtain ⟨k0, v0⟩ := kv
      by_cases h : k0 = k <;> simp [setKey, h]

theorem convert_map_spec (ps : List ParamDesc) :
    ps.map (fun p => (⟨p.name, p.type, p.value⟩ : ScalarQueryParameter)) = convertSpec ps := by
  induction ps with
  | nil => rfl
  | cons p rest ih => simp [convertSpec, ih]

/-! ## Claim theorems -/

/-- C3: `invoke` generates exactly `CALL \`<sp>\`(<placeholders>);` where the
placeholders are `len(params)` `?` markers joined by `", "`, independent of the
descriptors' `name` fields; for empty or omitted `params` the placeholder list
is empty. -/
theorem invoke_sql_shape (sp : String) (ps : List ParamDesc) :
    generate_invoke_sql sp (.pyList ps) =
      "CALL `" ++ sp ++ "`(" ++ pyJoin ", " (List.replicate ps.length "?") ++ ");" ∧
    generate_invoke_sql sp .pyNone = "CALL `" ++ sp ++ "`();" ∧
    generate_invoke_sql sp (.pyList []) = "CALL `" ++ sp ++ "`();" := by
  have hempty : "CALL `" ++ sp ++ "`(" ++ "" ++ ");" = "CALL `" ++ sp ++ "`();" := by
    rw [String.append_empty, String.append_assoc]
    rfl
  exact ⟨by rw [generate_invoke_sql, orEmpty_pyList, map_placeholder], hempty, hempty⟩

/-- C4: for non-empty `filters`, `select` generates
`SELECT <sel> FROM \`<table>\` WHERE <n1> = @<n1> AND <n2> = @<n2> ...;` with
one `name = @name` term per filter, joined by `" AND "`, in filter order. -/
theorem select_sql_where_shape (table sel : String) (fs : List ParamDesc)
    (h : fs ≠ []) :
    generate_select_sql table sel (.pyList fs) =
      "SELECT " ++ sel ++ " FROM `" ++ table ++ "`" ++ " WHERE " ++
        whereClauseSpec fs ++ ";" := by
  have hne : fs.isEmpty = false := by
    cases fs
    · exact absurd rfl h
    · rfl
  rw [generate_select_sql]
  simp [hne, pyJoin_map_filterTerm]

/-- C4 witness: the two-filter scenario from the repository's select test. -/
theorem select_sql_where_shape_witness :
    ([⟨some "param1", some "STRING", some (.vStr "value1")⟩,
      ⟨some "param2", some "FLOAT64", some (.vInt 1)⟩] : List ParamDesc) ≠ [] ∧
    generate_select_sql "dataset.table" "select_column"
      (.pyList [⟨some "param1", some "STRING", some (.vStr "value1")⟩,
                ⟨some "param2", some "FLOAT64", some (.vInt 1)⟩]) =
      "SELECT select_column FROM `dataset.table` WHERE param1 = @param1 AND param2 = @param2;" :=
  ⟨by decide, select_sql_where_shape "dataset.table" "select_column" _ (by decide)⟩

/-- C5: `get_one_result` returns `None` on an empty iterable, and the first
element of the first row otherwise. -/
theorem get_one_result_first (v : Value) (row : List Value) (rest : List PyRow) :
    get_one_result ([] : List PyRow) = none ∧
    get_one_result ((v :: row) :: rest) = some v :=
  ⟨rfl, rfl⟩

/-- C10: a present but falsy (empty) first row makes `get_one_result` return
`None`, exactly like an empty result set; no index error occurs. -/
theorem get_one_result_falsy_row (rest : List PyRow) :
    get_one_result (([] : PyRow) :: rest) = none := rfl

/-- C7: `insert` with empty row data performs no client calls and returns
without error. -/
theorem insert_empty_noop (gt : String → Nat)
    (ir : Nat → List RowMap → Option (List String) → Kwargs → List Value)
    (dt : String) (sel : Option (List String)) (kw : Kwargs) :
    insert gt ir dt [] sel kw = (.ok, []) := rfl

/-- C1 counterexample: `filters` given as a non-empty tuple (not a list) of one
descriptor emits no `WHERE` clause, yet `query` finds it truthy and installs
`query_parameters` in the delegated call's job options, contradicting the
claim that no parameters are bound for every non-list `filters`. -/
theorem select_nonlist_filters_cex :
    generate_select_sql "dataset.table" "c1"
      (.pyTuple [⟨some "param1", some "STRING", some (.vStr "value1")⟩]) =
      "SELECT c1 FROM `dataset.table`;" ∧
    (select_call "dataset.table" "c1"
        (.pyTuple [⟨some "param1", some "STRING", some (.vStr "value1")⟩]) []).job_config =
      some [("query_parameters",
             .jparams (some [⟨some "param1", some "STRING", some (.vStr "value1")⟩]))] := by
  exact ⟨rfl, rfl⟩

/-- C1 amended: when `filters` is falsy — omitted/`None`, an empty list, or an
empty non-list sequence — `select` emits no `WHERE` clause and installs no
query parameters: the delegated call carries exactly the caller's options. -/
theorem select_falsy_filters_no_where_no_params (table sel : String)
    (filters : PyParams) (jc : Kwargs) (h : filters.truthy = false) :
    generate_select_sql table sel filters =
      "SELECT " ++ sel ++ " FROM `" ++ table ++ "`" ++ ";" ∧
    merged_job_configs filters jc = jc ∧
    (select_call table sel filters jc).job_config = set_job_config jc := by
  have hmerge : merged_job_configs filters jc = jc := by
    rw [merged_job_configs, h]
    rfl
  refine ⟨?_, hmerge, ?_⟩
  · cases filters with
    | pyNone => rfl
    | pyList ps =>
        cases ps with
        | nil => rfl
        | cons p rest => simp [PyParams.truthy] at h
    | pyTuple ps => rfl
  · rw [select_call, query_call, hmerge]

/-- C1 amended witness: `select("dataset.table", "MAX(Id)")` with omitted
filters and no job options. -/
theorem select_falsy_filters_witness :
    PyParams.truthy .pyNone = false ∧
    (generate_select_sql "dataset.table" "MAX(Id)" .pyNone =
      "SELECT " ++ "MAX(Id)" ++ " FROM `" ++ "dataset.table" ++ "`" ++ ";" ∧
     merged_job_configs .pyNone [] = [] ∧
     (select_call "dataset.table" "MAX(Id)" .pyNone []).job_config = set_job_config []) :=
  ⟨rfl, select_falsy_filters_no_where_no_params "dataset.table" "MAX(Id)" .pyNone [] rfl⟩

/-- C2: for non-empty `params`, `query` converts each descriptor to a scalar
parameter from its name/type/value fields in order, installs the list under
the `query_parameters` key (overwriting any caller-supplied value there while
leaving every other option unchanged), and delegates exactly the literal SQL
text together with the merged configuration. -/
theorem query_installs_params (sql : String) (ps : List ParamDesc) (jc : Kwargs)
    (h : ps ≠ []) :
    (query_call sql (.pyList ps) jc).query = sql ∧
    (query_call sql (.pyList ps) jc).job_config =
      some (merged_job_configs (.pyList ps) jc) ∧
    lookupKey (merged_job_configs (.pyList ps) jc) "query_parameters" =
      some (.jparams (some (convertSpec ps))) ∧
    (∀ k, k ≠ "query_parameters" →
      lookupKey (merged_job_configs (.pyList ps) jc) k = lookupKey jc k) := by
  have ht : (PyParams.pyList ps).truthy = true := by
    cases ps
    · exact absurd rfl h
    · rfl
  have hconv : convert_params (.pyList ps) = some (convertSpec ps) := by
    rw [convert_params, ht, if_pos rfl, PyParams.toList, convert_map_spec]
  have hmerge : merged_job_configs (.pyList ps) jc =
      setKey jc "query_parameters" (.jparams (convert_params (.pyList ps))) := by
    rw [merged_job_configs, ht, if_pos rfl]
  refine ⟨rfl, ?_, ?_, ?_⟩
  · rw [query_call, hmerge, set_job_config]
    have : (setKey jc "query_parameters"
        (.jparams (convert_params (.pyList ps)))).isEmpty = false := by
      cases hk : setKey jc "query_parameters" (.jparams (convert_params (.pyList ps))) with
      | nil => exact absurd hk (setKey_ne_nil jc _ _)
      | cons a l => rfl
    rw [this]
    rfl
  · rw [hmerge, lookupKey_setKey_self, hconv]
  · intro k hk
    rw [hmerge, lookupKey_setKey_other jc "query_parameters" k _ hk]

/-- C2 witness: the end-to-end scenario from the spec — one STRING parameter
and a caller-supplied write disposition. -/
theorem query_installs_params_witness :
    ([⟨some "param1", some "STRING", some (.vStr "value1")⟩] : List ParamDesc) ≠ [] ∧
    ((query_call "SELECT * FROM dataset.table"
        (.pyList [⟨some "param1", some "STRING", some (.vStr "value1")⟩])
        [("write_disposition", .jstr "WRITE_TRUNCATE")]).query =
      "SELECT * FROM dataset.table" ∧
     (query_call "SELECT * FROM dataset.table"
        (.pyList [⟨some "param1", some "STRING", some (.vStr "value1")⟩])
        [("write_disposition", .jstr "WRITE_TRUNCATE")]).job_config =
      some (merged_job_configs
        (.pyList [⟨some "param1", some "STRING", some (.vStr "value1")⟩])
        [("write_disposition", .jstr "WRITE_TRUNCATE")]) ∧
     lookupKey (merged_job_configs
        (.pyList [⟨some "param1", some "STRING", some (.vStr "value1")⟩])
        [("write_disposition", .jstr "WRITE_TRUNCATE")]) "query_parameters" =
      some (.jparams (some (convertSpec
        [⟨some "param1", some "STRING", some (.vStr "value1")⟩]))) ∧
     (∀ k, k ≠ "query_parameters" →
       lookupKey (merged_job_configs
          (.pyList [⟨some "param1", some "STRING", some (.vStr "value1")⟩])
          [("write_disposition", .jstr "WRITE_TRUNCATE")]) k =
        lookupKey [("write_disposition", .jstr "WRITE_TRUNCATE")] k)) :=
  ⟨by decide, query_installs_params "SELECT * FROM dataset.table"
    [⟨some "param1", some "STRING", some (.vStr "value1")⟩]
    [("write_disposition", .jstr "WRITE_TRUNCATE")] (by decide)⟩

/-- C8: `query` passes a configuration to the wrapped client iff the merged
options mapping is non-empty; when the merged mapping is empty it passes
`None`. -/
theorem job_config_iff_nonempty (sql : String) (params : PyParams) (jc : Kwargs) :
    ((query_call sql params jc).job_config = none ↔
      merged_job_configs params jc = []) ∧
    ((query_call sql params jc).job_config = some (merged_job_configs params jc) ↔
      merged_job_configs params jc ≠ []) := by
  cases hm : merged_job_configs params jc with
  | nil => simp [query_call, set_job_config, hm]
  | cons a l => simp [query_call, set_job_config, hm]

/-- C6: for non-empty rows, `insert` raises `RuntimeError` carrying exactly the
client's error sequence iff that sequence is non-empty, and returns normally
when it is empty. -/
theorem insert_error_iff (gt : String → Nat)
    (ir : Nat → List RowMap → Option (List String) → Kwargs → List Value)
    (dt : String) (data : List RowMap) (sel : Option (List String)) (kw : Kwargs)
    (h : data ≠ []) :
    ((insert gt ir dt data sel kw).1 = .runtimeError (ir (gt dt) data sel kw) ↔
      ir (gt dt) data sel kw ≠ []) ∧
    (ir (gt dt) data sel kw = [] → (insert gt ir dt data sel kw).1 = .ok) := by
  have hne : data.isEmpty = false := by
    cases data
    · exact absurd rfl h
    · rfl
  cases hr : ir (gt dt) data sel kw with
  | nil => simp [insert, hne, hr]
  | cons e es => simp [insert, hne, hr]

/-- C6 witness: the failing-insert scenario from the repository's tests — one
row, client reporting one error descriptor. -/
theorem insert_error_iff_witness :
    ([[("column1", Value.vStr "value1")]] : List RowMap) ≠ [] ∧
    (((insert (fun _ => 0)
          (fun _ _ _ _ => [Value.vStr "error when insert to bigquery"])
          "dataset.table" [[("column1", Value.vStr "value1")]] none []).1 =
        .runtimeError [Value.vStr "error when insert to bigquery"] ↔
        ([Value.vStr "error when insert to bigquery"] : List Value) ≠ []) ∧
      (([Value.vStr "error when insert to bigquery"] : List Value) = [] →
        (insert (fun _ => 0)
          (fun _ _ _ _ => [Value.vStr "error when insert to bigquery"])
          "dataset.table" [[("column1", Value.vStr "value1")]] none []).1 = .ok)) :=
  ⟨by decide, insert_error_iff (fun _ => 0)
    (fun _ _ _ _ => [Value.vStr "error when insert to bigquery"])
    "dataset.table" [[("column1", Value.vStr "value1")]] none [] (by decide)⟩

/-- C9: `get_last_id` is `get_one_result` of `select(table, "MAX(Id)")`,
returning `0` when that result is `None` and the integer value otherwise. -/
theorem get_last_id_composition (cq : String → Option Kwargs → List PyRow)
    (dt : String) :
    (get_one_result (select_exec cq dt "MAX(Id)" .pyNone []) = none →
      get_last_id cq dt = .vInt 0) ∧
    (∀ n : Int, get_one_result (select_exec cq dt "MAX(Id)" .pyNone []) = some (.vInt n) →
      get_last_id cq dt = .vInt n) := by
  constructor
  · intro h
    rw [get_last_id, h]
    rfl
  · intro n h
    rw [get_last_id, h]
    by_cases h0 : n = 0
    · simp [pyOrZero, Value.truthy, h0]
    · simp [pyOrZero, Value.truthy, h0]

/-- C9 witness: a client whose select yields the single row `(5,)`. -/
theorem get_last_id_composition_witness :
    get_one_result (select_exec (fun _ _ => [[Value.vInt 5]]) "t" "MAX(Id)" .pyNone []) =
      some (.vInt 5) ∧
    get_last_id (fun _ _ => [[Value.vInt 5]]) "t" = .vInt 5 :=
  ⟨rfl, (get_last_id_composition (fun _ _ => [[Value.vInt 5]]) "t").2 5 rfl⟩

end BQM
